import Mathlib

/-!
Shallow embedding of the Telegram/Blogger sync server.

The repository contains two near-duplicate server files implementing the
same `POST /api/sync` endpoint; we call them version 0 (the file using the
Gemini enricher, no processing cap, no per-item catch, no upstream-error
check) and version 1 (the file with the `slice(0, 3)` cap, the per-item
try/catch, the `data.error` check, and the text-only retry fallback).
Both are embedded below as `handler0` and `handler1`.

Network effects (the Blogger fetch, the Gemini call, the Telegram sends)
are modelled by an explicit event trace and an oracle `Env` deciding the
outcome of each outbound Telegram call by its position in the cycle.
The SQLite tables are modelled by a list of post ids (`synced_posts`) and
a lookup function (`settings`).
-/

/-- JavaScript truthiness of a possibly-absent string: `undefined` and the
empty string are falsy. -/
def truthy : Option String → Bool
  | none => false
  | some s => s != ""

/-- JavaScript `a || b` on possibly-absent strings. -/
def jsOr (a b : Option String) : Option String :=
  if truthy a then a else b

/-- `getSetting` from the source: `row?.value || process.env[key]`. -/
def getSetting (settings envv : String → Option String) (key : String) : Option String :=
  jsOr (settings key) (envv key)

/-- Effective configuration value in the sync handler:
`OVERRIDE || getSetting(key)` (per-request body override first). -/
def resolveKey (ov : Option String) (settings envv : String → Option String)
    (key : String) : Option String :=
  jsOr ov (getSetting settings envv key)

/-- Normalized view of one Blogger post as the handlers consume it.
`images` is the list of structured image urls (`post.images?.[0]?.url`
reads its head); `content` and `title` may be absent. -/
structure FeedItem where
  id : String
  title : Option String
  content : Option String
  url : String
  images : List String
deriving DecidableEq, Repr

/-- One observable step of a sync cycle: database checks/inserts, the
outbound network calls, and the console error logs. -/
inductive Ev
  | fetch
  | check (id : String)
  | gemini (id : String)
  | sendPhoto (id : String) (photo : String) (msg : String) (ok : Bool)
  | sendText (id : String) (msg : String) (ok : Bool)
  | insert (id : String)
  | logErr (id : String) (reason : String)
deriving DecidableEq, Repr

/-- The HTTP response of the sync endpoint. -/
inductive Resp
  | missingConfig
  | bloggerError (msg : String)
  | noPosts
  | complete (synced : Nat)
  | serverError (msg : String)
deriving DecidableEq, Repr

/-- HTTP status code attached to each response shape. -/
def Resp.status : Resp → Nat
  | .missingConfig => 400
  | .bloggerError _ => 400
  | .noPosts => 200
  | .complete _ => 200
  | .serverError _ => 500

/-- Environment oracle: `tgOk n` is the `ok` flag of the `n`-th Telegram
send of the cycle; `gemini` is the black-box enricher of version 0
(it never throws: the source catches provider errors internally). -/
structure Env where
  tgOk : Nat → Bool
  gemini : Option String → String

/-- Loop state while processing fetched posts. -/
structure S where
  ledger : List String
  synced : Nat
  evs : List Ev
  n : Nat
deriving Repr

/-- The parsed Blogger response: a thrown network/JSON failure, or a JSON
object with optional `error` (with optional `message`) and optional
`items`. -/
inductive FetchResp
  | netFail (msg : String)
  | ok (error : Option (Option String)) (items : Option (List FeedItem))

/-- Per-request override credentials taken from the request body. -/
structure Req where
  ovApiKey : Option String
  ovBlogId : Option String
  ovBotToken : Option String
  ovChatId : Option String

/-- Persistent stores at the start of the cycle: the `settings` table, the
process environment, and the `synced_posts` ledger. -/
structure Stores where
  settings : String → Option String
  envv : String → Option String
  ledger : List String

/-- Capture part of the image regex: after `src="`, a nonempty run of
characters other than `"` and `>`, closed by `"`. -/
def srcCapture (cs : List Char) : Option String :=
  let run := cs.takeWhile (fun c => c != '"' && c != '>')
  let rest := cs.drop run.length
  if run.isEmpty then none
  else match rest with
    | '"' :: _ => some (String.mk run)
    | _ => none

/-- Whether a character list begins with the literal `src="`. -/
def startsSrc : List Char → Bool
  | 's' :: 'r' :: 'c' :: '=' :: '"' :: _ => true
  | _ => false

/-- Backtracking match of `[^>]+src="([^">]+)"` right after an `<img`:
the greedy `[^>]+` tries the rightmost `src="` first. -/
def imgMatchAfter (w : List Char) : Option String :=
  (((List.range (w.length + 1)).filter
      (fun j => decide (1 ≤ j) && startsSrc (w.drop j)
        && (w.take j).all (fun c => c != '>'))).reverse).findSome?
    (fun j => srcCapture (w.drop (j + 5)))

/-- Leftmost match of the source regex over the raw body. -/
def findImgFrom : List Char → Option String
  | [] => none
  | '<' :: 'i' :: 'm' :: 'g' :: rest =>
    match imgMatchAfter rest with
    | some u => some u
    | none => findImgFrom ('i' :: 'm' :: 'g' :: rest)
  | _ :: cs => findImgFrom cs

/-- `content.match(/<img[^>]+src="([^">]+)"/)` returning the captured url. -/
def firstImgSrc (s : String) : Option String :=
  findImgFrom s.toList

/-- Global replace of `/<[^>]*>/g` by the empty string: each `<` with a
later `>` is removed together with everything up to that first `>`. -/
def stripTagsL : List Char → List Char
  | [] => []
  | c :: cs =>
    if c == '<' && cs.contains '>' then
      stripTagsL (cs.drop ((cs.takeWhile (fun x => x != '>')).length + 1))
    else
      c :: stripTagsL cs
termination_by l => l.length
decreasing_by
  · simp only [List.length_drop, List.length_cons]
    omega
  · simp only [List.length_cons]
    omega

/-- Version 1 enricher `extractMovieDetails`: title (with fallback),
tag-stripped 200-character excerpt, wrapped in bold markup. -/
def extractMovieDetails1 (post : FeedItem) : String :=
  let title := match post.title with
    | some t => if t == "" then "New Movie Post" else t
    | none => "New Movie Post"
  let content := match post.content with
    | some c => c
    | none => ""
  let snippet := String.mk ((stripTagsL content.toList).take 200) ++ "..."
  "<b>" ++ title ++ "</b>\n\n" ++ snippet

/-- Image resolution for one post: the structured image url if truthy,
else a scan of `post.content` for an embedded `<img src>`; reading
`post.content.match` when `content` is absent throws (the `.error` case). -/
def resolveImage (post : FeedItem) : Except Unit (Option String) :=
  let iu : Option String := post.images.head?
  if truthy iu then .ok iu
  else match post.content with
    | none => .error ()
    | some c =>
      match firstImgSrc c with
      | some u => .ok (some u)
      | none => .ok iu

/-- The fixed call-to-action suffix appended to the caption. -/
def ctaSuffix (url : String) : String :=
  "\n\n🔗 Download Now: " ++ url

/-- Full composed message of version 1 for one post. -/
def fullMessage1 (post : FeedItem) : String :=
  extractMovieDetails1 post ++ ctaSuffix post.url

/-- Version 1 body of the `for (const post of postsToProcess)` loop: skip
if the ledger has the id; resolve the image (a throw here is caught by the
per-item catch and logged); send photo+caption when an image is truthy,
with a one-shot text-only fallback on failure; insert into the ledger only
after an `ok` response. -/
def step1 (env : Env) (s : S) (post : FeedItem) : S :=
  let s0 : S := { s with evs := s.evs ++ [Ev.check post.id] }
  if s.ledger.contains post.id then s0
  else
    match resolveImage post with
    | .error _ =>
      { s0 with evs := s0.evs ++ [Ev.logErr post.id "Error processing post"] }
    | .ok imageUrl =>
      let msg := fullMessage1 post
      if truthy imageUrl then
        let img := imageUrl.getD ""
        if env.tgOk s.n then
          { ledger := s.ledger ++ [post.id], synced := s.synced + 1,
            evs := s0.evs ++ [Ev.sendPhoto post.id img msg true, Ev.insert post.id],
            n := s.n + 1 }
        else if env.tgOk (s.n + 1) then
          { ledger := s.ledger ++ [post.id], synced := s.synced + 1,
            evs := s0.evs ++ [Ev.sendPhoto post.id img msg false,
              Ev.logErr post.id "Telegram Send Failed",
              Ev.sendText post.id msg true, Ev.insert post.id],
            n := s.n + 2 }
        else
          { s with
            evs := s0.evs ++ [Ev.sendPhoto post.id img msg false,
              Ev.logErr post.id "Telegram Send Failed",
              Ev.sendText post.id msg false],
            n := s.n + 2 }
      else
        if env.tgOk s.n then
          { ledger := s.ledger ++ [post.id], synced := s.synced + 1,
            evs := s0.evs ++ [Ev.sendText post.id msg true, Ev.insert post.id],
            n := s.n + 1 }
        else
          { s with
            evs := s0.evs ++ [Ev.sendText post.id msg false,
              Ev.logErr post.id "Telegram Send Failed"],
            n := s.n + 1 }

/-- Version 1 processing loop over the capped post list. -/
def loop1 (env : Env) : S → List FeedItem → S
  | s, [] => s
  | s, p :: rest => loop1 env (step1 env s p) rest

/-- Version 0 body of the loop: no per-item catch, so an image-resolution
throw escapes (`.error`); the Gemini enricher is called on the raw
content; no text-only fallback — a failed send is silently skipped. -/
def step0 (env : Env) (s : S) (post : FeedItem) : Except S S :=
  let s0 : S := { s with evs := s.evs ++ [Ev.check post.id] }
  if s.ledger.contains post.id then .ok s0
  else
    match resolveImage post with
    | .error _ => .error s0
    | .ok imageUrl =>
      let details := env.gemini post.content
      let s1 : S := { s0 with evs := s0.evs ++ [Ev.gemini post.id] }
      let msg := details ++ ctaSuffix post.url
      if truthy imageUrl then
        let img := imageUrl.getD ""
        if env.tgOk s.n then
          .ok { ledger := s.ledger ++ [post.id], synced := s.synced + 1,
                evs := s1.evs ++ [Ev.sendPhoto post.id img msg true, Ev.insert post.id],
                n := s.n + 1 }
        else
          .ok { s with
            evs := s1.evs ++ [Ev.sendPhoto post.id img msg false],
            n := s.n + 1 }
      else
        if env.tgOk s.n then
          .ok { ledger := s.ledger ++ [post.id], synced := s.synced + 1,
                evs := s1.evs ++ [Ev.sendText post.id msg true, Ev.insert post.id],
                n := s.n + 1 }
        else
          .ok { s with
            evs := s1.evs ++ [Ev.sendText post.id msg false],
            n := s.n + 1 }

/-- Version 0 loop over all fetched posts; the boolean reports whether a
per-item throw aborted the loop (propagating to the outer catch). -/
def loop0 (env : Env) : S → List FeedItem → S × Bool
  | s, [] => (s, false)
  | s, p :: rest =>
    match step0 env s p with
    | .error se => (se, true)
    | .ok s1 => loop0 env s1 rest

/-- `data.error.message || "Unknown error"`. -/
def errMsg : Option String → String
  | some t => if t == "" then "Unknown error" else t
  | none => "Unknown error"

/-- The four required configuration values all resolve truthy. -/
def requiredOk (req : Req) (st : Stores) : Bool :=
  truthy (resolveKey req.ovApiKey st.settings st.envv "BLOGGER_API_KEY") &&
  truthy (resolveKey req.ovBlogId st.settings st.envv "BLOGGER_BLOG_ID") &&
  truthy (resolveKey req.ovBotToken st.settings st.envv "TELEGRAM_BOT_TOKEN") &&
  truthy (resolveKey req.ovChatId st.settings st.envv "TELEGRAM_CHANNEL_ID")

/-- Observable outcome of one `POST /api/sync` request. -/
structure Outcome where
  resp : Resp
  ledger : List String
  evs : List Ev
deriving DecidableEq, Repr

/-- Version 1 `POST /api/sync`: config check, fetch, `data.error` check,
`data.items` check, then the per-item loop over `items.slice(0, 3)`. -/
def handler1 (req : Req) (st : Stores) (env : Env) (fr : FetchResp) : Outcome :=
  if requiredOk req st then
    match fr with
    | .netFail msg =>
      { resp := .serverError ("Sync failed: " ++ msg), ledger := st.ledger,
        evs := [Ev.fetch] }
    | .ok err items =>
      match err with
      | some m =>
        { resp := .bloggerError ("Blogger API Error: " ++ errMsg m),
          ledger := st.ledger, evs := [Ev.fetch] }
      | none =>
        match items with
        | none => { resp := .noPosts, ledger := st.ledger, evs := [Ev.fetch] }
        | some its =>
          let fin := loop1 env
            { ledger := st.ledger, synced := 0, evs := [Ev.fetch], n := 0 }
            (its.take 3)
          { resp := .complete fin.synced, ledger := fin.ledger, evs := fin.evs }
  else { resp := .missingConfig, ledger := st.ledger, evs := [] }

/-- Version 0 `POST /api/sync`: config check, fetch, `data.items` check
(the `data.error` field is never consulted), then the per-item loop over
all fetched posts; a per-item throw reaches the outer catch (HTTP 500). -/
def handler0 (req : Req) (st : Stores) (env : Env) (fr : FetchResp) : Outcome :=
  if requiredOk req st then
    match fr with
    | .netFail msg =>
      { resp := .serverError msg, ledger := st.ledger, evs := [Ev.fetch] }
    | .ok _ items =>
      match items with
      | none => { resp := .noPosts, ledger := st.ledger, evs := [Ev.fetch] }
      | some its =>
        let r := loop0 env
          { ledger := st.ledger, synced := 0, evs := [Ev.fetch], n := 0 } its
        if r.2 then
          { resp := .serverError "TypeError: post.content is undefined",
            ledger := r.1.ledger, evs := r.1.evs }
        else
          { resp := .complete r.1.synced, ledger := r.1.ledger, evs := r.1.evs }
  else { resp := .missingConfig, ledger := st.ledger, evs := [] }

/-- Sends (attempted deliveries) addressed to a given post id. -/
def evSendFor (id : String) : Ev → Bool
  | .sendPhoto i _ _ _ => i == id
  | .sendText i _ _ => i == id
  | _ => false

/-- Successful sends addressed to a given post id. -/
def evOkSendFor (id : String) : Ev → Bool
  | .sendPhoto i _ _ ok => i == id && ok
  | .sendText i _ ok => i == id && ok
  | _ => false

/-- Ledger-existence checks performed, in order. -/
def checkedIds : List Ev → List String
  | [] => []
  | Ev.check i :: rest => i :: checkedIds rest
  | _ :: rest => checkedIds rest

/-- Ledger inserts. -/
def isInsertEv : Ev → Bool
  | .insert _ => true
  | _ => false

/-- Text-only sends (used to count retry attempts). -/
def isTextSend : Ev → Bool
  | .sendText _ _ _ => true
  | _ => false


/-- Ledger soundness invariant threaded through a cycle: an id is in the
ledger exactly when it was there initially (set `L0`) or some Telegram send
for it in the trace returned a success response. -/
def LInv (L0 : List String) (s : S) : Prop :=
  ∀ id, id ∈ s.ledger ↔ (id ∈ L0 ∨ s.evs.any (evOkSendFor id) = true)

/-- Initial loop state of a cycle, right after the Blogger fetch. -/
def sInit (st : Stores) : S :=
  { ledger := st.ledger, synced := 0, evs := [Ev.fetch], n := 0 }

/- Concrete fixtures used by witnesses and counterexamples. -/

def itemP1 : FeedItem :=
  { id := "p1", title := some "T1", content := some "b1", url := "u1", images := ["i1"] }

def itemP2 : FeedItem :=
  { id := "p2", title := some "T2", content := some "b2", url := "u2", images := ["i2"] }

def itemP3 : FeedItem :=
  { id := "p3", title := some "T3", content := some "b3", url := "u3", images := ["i3"] }

def itemP4 : FeedItem :=
  { id := "p4", title := some "T4", content := some "b4", url := "u4", images := ["i4"] }

def itemNoImg : FeedItem :=
  { id := "q1", title := some "TQ", content := some "plain", url := "uq", images := [] }

def itemBad : FeedItem :=
  { id := "pb", title := none, content := none, url := "ub", images := [] }

def reqAll : Req :=
  { ovApiKey := some "k", ovBlogId := some "b", ovBotToken := some "t", ovChatId := some "c" }

def reqNone : Req :=
  { ovApiKey := none, ovBlogId := none, ovBotToken := none, ovChatId := none }

def storeEmpty : Stores :=
  { settings := fun _ => none, envv := fun _ => none, ledger := [] }

def storeWarm : Stores :=
  { settings := fun _ => none, envv := fun _ => none, ledger := ["p1"] }

def envOk : Env := { tgOk := fun _ => true, gemini := fun _ => "D" }

def envFail : Env := { tgOk := fun _ => false, gemini := fun _ => "D" }

theorem contains_false_not_mem {l : List String} {a : String}
    (h : l.contains a = false) : a ∉ l := by
  intro hm
  have h2 : l.contains a = true := List.elem_iff.mpr hm
  rw [h] at h2
  exact Bool.false_ne_true h2

theorem step1_LInv (env : Env) (p : FeedItem) (L0 : List String) (s : S)
    (h : LInv L0 s) : LInv L0 (step1 env s p) := by
  intro id
  have hs := h id
  unfold step1
  cases hc : s.ledger.contains p.id with
  | true => simp [List.any_append, evOkSendFor, hs, -List.any_eq_true]
  | false =>
    cases hri : resolveImage p with
    | error e => simp [List.any_append, evOkSendFor, hs, -List.any_eq_true]
    | ok iu =>
      by_cases hti : truthy iu
      · by_cases h0 : env.tgOk s.n
        · simp [hti, h0, List.any_append, evOkSendFor, List.mem_append, hs,
            -List.any_eq_true]
          tauto
        · by_cases h1 : env.tgOk (s.n + 1)
          · simp [hti, h0, h1, List.any_append, evOkSendFor, List.mem_append, hs,
              -List.any_eq_true]
            tauto
          · simp [hti, h0, h1, List.any_append, evOkSendFor, hs, -List.any_eq_true]
      · by_cases h0 : env.tgOk s.n
        · simp [hti, h0, List.any_append, evOkSendFor, List.mem_append, hs,
            -List.any_eq_true]
          tauto
        · simp [hti, h0, List.any_append, evOkSendFor, hs, -List.any_eq_true]

theorem loop1_LInv (env : Env) (l : List FeedItem) (L0 : List String) (s : S)
    (h : LInv L0 s) : LInv L0 (loop1 env s l) := by
  induction l generalizing s with
  | nil => simpa [loop1] using h
  | cons p rest ih => exact ih _ (step1_LInv env p L0 s h)

theorem step0_LInv (env : Env) (p : FeedItem) (L0 : List String) (s : S)
    (h : LInv L0 s) :
    LInv L0 (match step0 env s p with | .ok t => t | .error t => t) := by
  intro id
  have hs := h id
  unfold step0
  cases hc : s.ledger.contains p.id with
  | true => simp [List.any_append, evOkSendFor, hs, -List.any_eq_true]
  | false =>
    cases hri : resolveImage p with
    | error e => simp [List.any_append, evOkSendFor, hs, -List.any_eq_true]
    | ok iu =>
      by_cases hti : truthy iu
      · by_cases h0 : env.tgOk s.n
        · simp [hti, h0, List.any_append, evOkSendFor, List.mem_append, hs,
            -List.any_eq_true]
          tauto
        · simp [hti, h0, List.any_append, evOkSendFor, hs, -List.any_eq_true]
      · by_cases h0 : env.tgOk s.n
        · simp [hti, h0, List.any_append, evOkSendFor, List.mem_append, hs,
            -List.any_eq_true]
          tauto
        · simp [hti, h0, List.any_append, evOkSendFor, hs, -List.any_eq_true]

theorem loop0_LInv (env : Env) (l : List FeedItem) (L0 : List String) (s : S)
    (h : LInv L0 s) : LInv L0 (loop0 env s l).1 := by
  induction l generalizing s with
  | nil => simpa [loop0] using h
  | cons p rest ih =>
    have hstep := step0_LInv env p L0 s h
    unfold loop0
    cases hst : step0 env s p with
    | error se =>
      simpa [hst] using (by simpa [hst] using hstep)
    | ok s1 =>
      simp only [hst]
      exact ih _ (by simpa [hst] using hstep)

theorem handler1_LInv (req : Req) (st : Stores) (env : Env) (fr : FetchResp)
    (id : String) :
    id ∈ (handler1 req st env fr).ledger ↔
      (id ∈ st.ledger ∨ (handler1 req st env fr).evs.any (evOkSendFor id) = true) := by
  unfold handler1
  have hbase : LInv st.ledger { ledger := st.ledger, synced := 0, evs := [Ev.fetch], n := 0 } := by
    intro i; simp [evOkSendFor, -List.any_eq_true]
  by_cases hok : requiredOk req st
  · cases fr with
    | netFail m => simp [hok, evOkSendFor, -List.any_eq_true]
    | ok err items =>
      cases err with
      | some m => simp [hok, evOkSendFor, -List.any_eq_true]
      | none =>
        cases items with
        | none => simp [hok, evOkSendFor, -List.any_eq_true]
        | some its =>
          simp only [hok, if_true]
          exact loop1_LInv env (its.take 3) st.ledger _ hbase id
  · simp [hok, evOkSendFor, -List.any_eq_true]

theorem handler0_LInv (req : Req) (st : Stores) (env : Env) (fr : FetchResp)
    (id : String) :
    id ∈ (handler0 req st env fr).ledger ↔
      (id ∈ st.ledger ∨ (handler0 req st env fr).evs.any (evOkSendFor id) = true) := by
  unfold handler0
  have hbase : LInv st.ledger { ledger := st.ledger, synced := 0, evs := [Ev.fetch], n := 0 } := by
    intro i; simp [evOkSendFor, -List.any_eq_true]
  by_cases hok : requiredOk req st
  · cases fr with
    | netFail m => simp [hok, evOkSendFor, -List.any_eq_true]
    | ok err items =>
      cases items with
      | none => simp [hok, evOkSendFor, -List.any_eq_true]
      | some its =>
        simp only [hok, if_true]
        have := loop0_LInv env its st.ledger _ hbase id
        cases h2 : (loop0 env { ledger := st.ledger, synced := 0, evs := [Ev.fetch], n := 0 } its).2 <;>
          simpa [h2] using this
  · simp [hok, evOkSendFor, -List.any_eq_true]

theorem step1_NoSend (env : Env) (p : FeedItem) (L0 : List String) (s : S)
    (hsub : ∀ id ∈ L0, id ∈ s.ledger)
    (hns : ∀ id ∈ L0, s.evs.any (evSendFor id) = false) :
    (∀ id ∈ L0, id ∈ (step1 env s p).ledger) ∧
    (∀ id ∈ L0, (step1 env s p).evs.any (evSendFor id) = false) := by
  unfold step1
  cases hc : s.ledger.contains p.id with
  | true =>
    constructor
    · intro id hid; simpa using hsub id hid
    · intro id hid
      simp [List.any_append, evSendFor, hns id hid, -List.any_eq_true]
  | false =>
    have hne : ∀ id ∈ L0, ¬ p.id = id := by
      intro id hid heq
      exact contains_false_not_mem hc (heq ▸ hsub id hid)
    cases hri : resolveImage p with
    | error e =>
      constructor
      · intro id hid; simpa using hsub id hid
      · intro id hid
        simp [List.any_append, evSendFor, hns id hid, -List.any_eq_true]
    | ok iu =>
      by_cases hti : truthy iu
      · by_cases h0 : env.tgOk s.n
        · refine ⟨fun id hid => ?_, fun id hid => ?_⟩
          · simp [hti, h0, List.mem_append]; left; exact hsub id hid
          · simp [hti, h0, List.any_append, evSendFor, hns id hid,
              hne id hid, -List.any_eq_true]
        · by_cases h1 : env.tgOk (s.n + 1)
          · refine ⟨fun id hid => ?_, fun id hid => ?_⟩
            · simp [hti, h0, h1, List.mem_append]; left; exact hsub id hid
            · simp [hti, h0, h1, List.any_append, evSendFor, hns id hid,
                hne id hid, -List.any_eq_true]
          · refine ⟨fun id hid => ?_, fun id hid => ?_⟩
            · simp [hti, h0, h1]; exact hsub id hid
            · simp [hti, h0, h1, List.any_append, evSendFor, hns id hid,
                hne id hid, -List.any_eq_true]
      · by_cases h0 : env.tgOk s.n
        · refine ⟨fun id hid => ?_, fun id hid => ?_⟩
          · simp [hti, h0, List.mem_append]; left; exact hsub id hid
          · simp [hti, h0, List.any_append, evSendFor, hns id hid,
              hne id hid, -List.any_eq_true]
        · refine ⟨fun id hid => ?_, fun id hid => ?_⟩
          · simp [hti, h0]; exact hsub id hid
          · simp [hti, h0, List.any_append, evSendFor, hns id hid,
              hne id hid, -List.any_eq_true]

theorem loop1_NoSend (env : Env) (l : List FeedItem) (L0 : List String) (s : S)
    (hsub : ∀ id ∈ L0, id ∈ s.ledger)
    (hns : ∀ id ∈ L0, s.evs.any (evSendFor id) = false) :
    ∀ id ∈ L0, (loop1 env s l).evs.any (evSendFor id) = false := by
  induction l generalizing s with
  | nil => simpa [loop1] using hns
  | cons p rest ih =>
    have h := step1_NoSend env p L0 s hsub hns
    exact ih _ h.1 h.2

theorem step0_NoSend (env : Env) (p : FeedItem) (L0 : List String) (s : S)
    (hsub : ∀ id ∈ L0, id ∈ s.ledger)
    (hns : ∀ id ∈ L0, s.evs.any (evSendFor id) = false) :
    (∀ id ∈ L0, id ∈ (match step0 env s p with | .ok t => t | .error t => t).ledger) ∧
    (∀ id ∈ L0, (match step0 env s p with | .ok t => t | .error t => t).evs.any
      (evSendFor id) = false) := by
  unfold step0
  cases hc : s.ledger.contains p.id with
  | true =>
    refine ⟨fun id hid => ?_, fun id hid => ?_⟩
    · simpa using hsub id hid
    · simp [List.any_append, evSendFor, hns id hid, -List.any_eq_true]
  | false =>
    have hne : ∀ id ∈ L0, ¬ p.id = id := by
      intro id hid heq
      exact contains_false_not_mem hc (heq ▸ hsub id hid)
    cases hri : resolveImage p with
    | error e =>
      refine ⟨fun id hid => ?_, fun id hid => ?_⟩
      · simpa using hsub id hid
      · simp [List.any_append, evSendFor, hns id hid, -List.any_eq_true]
    | ok iu =>
      by_cases hti : truthy iu
      · by_cases h0 : env.tgOk s.n
        · refine ⟨fun id hid => ?_, fun id hid => ?_⟩
          · simp [hti, h0, List.mem_append]; left; exact hsub id hid
          · simp [hti, h0, List.any_append, evSendFor, hns id hid,
              hne id hid, -List.any_eq_true]
        · refine ⟨fun id hid => ?_, fun id hid => ?_⟩
          · simp [hti, h0]; exact hsub id hid
          · simp [hti, h0, List.any_append, evSendFor, hns id hid,
              hne id hid, -List.any_eq_true]
      · by_cases h0 : env.tgOk s.n
        · refine ⟨fun id hid => ?_, fun id hid => ?_⟩
          · simp [hti, h0, List.mem_append]; left; exact hsub id hid
          · simp [hti, h0, List.any_append, evSendFor, hns id hid,
              hne id hid, -List.any_eq_true]
        · refine ⟨fun id hid => ?_, fun id hid => ?_⟩
          · simp [hti, h0]; exact hsub id hid
          · simp [hti, h0, List.any_append, evSendFor, hns id hid,
              hne id hid, -List.any_eq_true]

theorem loop0_NoSend (env : Env) (l : List FeedItem) (L0 : List String) (s : S)
    (hsub : ∀ id ∈ L0, id ∈ s.ledger)
    (hns : ∀ id ∈ L0, s.evs.any (evSendFor id) = false) :
    ∀ id ∈ L0, (loop0 env s l).1.evs.any (evSendFor id) = false := by
  induction l generalizing s with
  | nil => simpa [loop0] using hns
  | cons p rest ih =>
    have h := step0_NoSend env p L0 s hsub hns
    unfold loop0
    cases hst : step0 env s p with
    | error se =>
      simp only [hst]
      intro id hid
      have := h.2 id hid
      simpa [hst] using this
    | ok s1 =>
      simp only [hst]
      refine ih _ (fun id hid => ?_) (fun id hid => ?_)
      · have := h.1 id hid; simpa [hst] using this
      · have := h.2 id hid; simpa [hst] using this

theorem step1_warm (env : Env) (p : FeedItem) (s : S) (h : p.id ∈ s.ledger) :
    step1 env s p = { s with evs := s.evs ++ [Ev.check p.id] } := by
  have hc : s.ledger.contains p.id = true := List.elem_iff.mpr h
  unfold step1
  rw [if_pos hc]

theorem loop1_warm (env : Env) (l : List FeedItem) (s : S)
    (h : ∀ p ∈ l, p.id ∈ s.ledger) :
    loop1 env s l = { s with evs := s.evs ++ l.map (fun p => Ev.check p.id) } := by
  induction l generalizing s with
  | nil => simp [loop1]
  | cons p rest ih =>
    rw [loop1, step1_warm env p s (h p (by simp))]
    have hrest : ∀ q ∈ rest, q.id ∈ ({ s with evs := s.evs ++ [Ev.check p.id] } : S).ledger := by
      intro q hq
      simpa using h q (by simp [hq])
    rw [ih _ hrest]
    simp

theorem step0_warm (env : Env) (p : FeedItem) (s : S) (h : p.id ∈ s.ledger) :
    step0 env s p = .ok { s with evs := s.evs ++ [Ev.check p.id] } := by
  have hc : s.ledger.contains p.id = true := List.elem_iff.mpr h
  unfold step0
  rw [if_pos hc]

theorem loop0_warm (env : Env) (l : List FeedItem) (s : S)
    (h : ∀ p ∈ l, p.id ∈ s.ledger) :
    loop0 env s l = ({ s with evs := s.evs ++ l.map (fun p => Ev.check p.id) }, false) := by
  induction l generalizing s with
  | nil => simp [loop0]
  | cons p rest ih =>
    rw [loop0, step0_warm env p s (h p (by simp))]
    simp only
    have hrest : ∀ q ∈ rest, q.id ∈ ({ s with evs := s.evs ++ [Ev.check p.id] } : S).ledger := by
      intro q hq
      simpa using h q (by simp [hq])
    rw [ih _ hrest]
    simp

theorem checkedIds_append (a b : List Ev) :
    checkedIds (a ++ b) = checkedIds a ++ checkedIds b := by
  induction a with
  | nil => simp [checkedIds]
  | cons ev rest ih => cases ev <;> simp [checkedIds, ih]

theorem step1_checked (env : Env) (p : FeedItem) (s : S) :
    checkedIds (step1 env s p).evs = checkedIds s.evs ++ [p.id] := by
  unfold step1
  cases hc : s.ledger.contains p.id with
  | true => simp [checkedIds_append, checkedIds]
  | false =>
    cases hri : resolveImage p with
    | error e => simp [checkedIds_append, checkedIds]
    | ok iu =>
      by_cases hti : truthy iu
      · by_cases h0 : env.tgOk s.n
        · simp [hti, h0, checkedIds_append, checkedIds]
        · by_cases h1 : env.tgOk (s.n + 1)
          · simp [hti, h0, h1, checkedIds_append, checkedIds]
          · simp [hti, h0, h1, checkedIds_append, checkedIds]
      · by_cases h0 : env.tgOk s.n
        · simp [hti, h0, checkedIds_append, checkedIds]
        · simp [hti, h0, checkedIds_append, checkedIds]

theorem loop1_checked (env : Env) (l : List FeedItem) (s : S) :
    checkedIds (loop1 env s l).evs =
      checkedIds s.evs ++ l.map (fun p => p.id) := by
  induction l generalizing s with
  | nil => simp [loop1]
  | cons p rest ih =>
    rw [loop1, ih, step1_checked]
    simp

theorem step1_count (env : Env) (p : FeedItem) (s : S)
    (h : s.synced = (s.evs.filter isInsertEv).length) :
    (step1 env s p).synced = ((step1 env s p).evs.filter isInsertEv).length := by
  unfold step1
  cases hc : s.ledger.contains p.id with
  | true => simp [List.filter_append, isInsertEv, h]
  | false =>
    cases hri : resolveImage p with
    | error e => simp [List.filter_append, isInsertEv, h]
    | ok iu =>
      by_cases hti : truthy iu
      · by_cases h0 : env.tgOk s.n
        · simp [hti, h0, List.filter_append, isInsertEv, h]
        · by_cases h1 : env.tgOk (s.n + 1)
          · simp [hti, h0, h1, List.filter_append, isInsertEv, h]
          · simp [hti, h0, h1, List.filter_append, isInsertEv, h]
      · by_cases h0 : env.tgOk s.n
        · simp [hti, h0, List.filter_append, isInsertEv, h]
        · simp [hti, h0, List.filter_append, isInsertEv, h]

theorem loop1_count (env : Env) (l : List FeedItem) (s : S)
    (h : s.synced = (s.evs.filter isInsertEv).length) :
    (loop1 env s l).synced = ((loop1 env s l).evs.filter isInsertEv).length := by
  induction l generalizing s with
  | nil => simpa [loop1] using h
  | cons p rest ih => exact ih _ (step1_count env p s h)

theorem handler1_eq_loop (req : Req) (st : Stores) (env : Env)
    (its : List FeedItem) (hok : requiredOk req st = true) :
    handler1 req st env (.ok none (some its)) =
      { resp := .complete (loop1 env (sInit st) (its.take 3)).synced,
        ledger := (loop1 env (sInit st) (its.take 3)).ledger,
        evs := (loop1 env (sInit st) (its.take 3)).evs } := by
  simp [handler1, hok, sInit]

theorem handler1_NoSend (req : Req) (st : Stores) (env : Env) (fr : FetchResp) :
    ∀ id ∈ st.ledger, (handler1 req st env fr).evs.any (evSendFor id) = false := by
  intro id hid
  unfold handler1
  by_cases hok : requiredOk req st
  · cases fr with
    | netFail m => simp [hok, evSendFor, -List.any_eq_true]
    | ok err items =>
      cases err with
      | some m => simp [hok, evSendFor, -List.any_eq_true]
      | none =>
        cases items with
        | none => simp [hok, evSendFor, -List.any_eq_true]
        | some its =>
          simp only [hok, if_true]
          exact loop1_NoSend env (its.take 3) st.ledger _
            (fun i hi => by simpa using hi)
            (fun i hi => by simp [evSendFor, -List.any_eq_true]) id hid
  · simp [hok, -List.any_eq_true]

theorem handler0_NoSend (req : Req) (st : Stores) (env : Env) (fr : FetchResp) :
    ∀ id ∈ st.ledger, (handler0 req st env fr).evs.any (evSendFor id) = false := by
  intro id hid
  unfold handler0
  by_cases hok : requiredOk req st
  · cases fr with
    | netFail m => simp [hok, evSendFor, -List.any_eq_true]
    | ok err items =>
      cases items with
      | none => simp [hok, evSendFor, -List.any_eq_true]
      | some its =>
        simp only [hok, if_true]
        have := loop0_NoSend env its st.ledger
          { ledger := st.ledger, synced := 0, evs := [Ev.fetch], n := 0 }
          (fun i hi => by simpa using hi)
          (fun i hi => by simp [evSendFor, -List.any_eq_true]) id hid
        cases h2 : (loop0 env { ledger := st.ledger, synced := 0, evs := [Ev.fetch], n := 0 } its).2 <;>
          simpa [h2] using this
  · simp [hok, -List.any_eq_true]

theorem handler1_checked (req : Req) (st : Stores) (env : Env)
    (its : List FeedItem) (hok : requiredOk req st = true) :
    checkedIds (handler1 req st env (.ok none (some its))).evs =
      (its.take 3).map (fun p => p.id) := by
  rw [handler1_eq_loop req st env its hok]
  simp only
  rw [loop1_checked]
  simp [sInit, checkedIds]

theorem handler1_count (req : Req) (st : Stores) (env : Env)
    (its : List FeedItem) (hok : requiredOk req st = true) :
    (handler1 req st env (.ok none (some its))).resp =
      .complete (((handler1 req st env (.ok none (some its))).evs.filter
        isInsertEv).length) := by
  rw [handler1_eq_loop req st env its hok]
  simp only
  rw [loop1_count env (its.take 3) (sInit st) (by simp [sInit, isInsertEv])]

/-- Claim C1: in both handler versions, the `synced_posts` ledger holds an
id after a cycle iff it held it before or some delivery attempt for that id
returned a success response during the cycle; in particular a failed
delivery leaves the ledger unwritten, so the item stays a candidate. -/
theorem c1_ledger_entry_iff_successful_delivery (req : Req) (st : Stores) (env : Env) (fr : FetchResp) (id : String) :
    (id ∈ (handler1 req st env fr).ledger ↔
      (id ∈ st.ledger ∨ (handler1 req st env fr).evs.any (evOkSendFor id) = true)) ∧
    (id ∈ (handler0 req st env fr).ledger ↔
      (id ∈ st.ledger ∨ (handler0 req st env fr).evs.any (evOkSendFor id) = true)) :=
  ⟨handler1_LInv req st env fr id, handler0_LInv req st env fr id⟩

/-- Claim C2 counterexample: in the version 0 handler, an item with no
structured image and no body throws during image resolution; the cycle
aborts with an HTTP 500 and the following item is never examined, so a
single item failure does abort the cycle, contrary to the claim. -/
theorem c2_counterexample_version0_item_failure_aborts_cycle :
    handler0 reqAll storeEmpty envOk (.ok none (some [itemBad, itemP1])) =
      { resp := .serverError "TypeError: post.content is undefined",
        ledger := [], evs := [Ev.fetch, Ev.check "pb"] } ∧
    checkedIds (handler0 reqAll storeEmpty envOk
      (.ok none (some [itemBad, itemP1]))).evs = ["pb"] ∧
    Resp.status (handler0 reqAll storeEmpty envOk
      (.ok none (some [itemBad, itemP1]))).resp = 500 := by
  decide

/-- Claim C2 (amended): in the version 1 handler, a per-item failure is
caught (logged to the console, not recorded in the response), the response
is always a completed sync result, every item of the capped prefix is
examined in fetch order, and no fetched response ever yields a 500. -/
theorem c2_amended_version1_isolates_item_failures (req : Req) (st : Stores) (env : Env)
    (its : List FeedItem) (hok : requiredOk req st = true) :
    (∃ k, (handler1 req st env (.ok none (some its))).resp = .complete k) ∧
    checkedIds (handler1 req st env (.ok none (some its))).evs =
      (its.take 3).map (fun p => p.id) ∧
    (∀ (e : Option (Option String)) (i : Option (List FeedItem)) (m : String),
      (handler1 req st env (.ok e i)).resp ≠ .serverError m) := by
  refine ⟨?_, handler1_checked req st env its hok, fun e i m => ?_⟩
  · rw [handler1_eq_loop req st env its hok]
    exact ⟨_, rfl⟩
  · unfold handler1
    by_cases h2 : requiredOk req st
    · cases e with
      | some x => simp [h2]
      | none =>
        cases i with
        | none => simp [h2]
        | some l => simp [h2]
    · simp [h2]

/-- Witness for the amended C2 at a concrete input. -/
theorem c2_amended_version1_isolates_item_failures_witness :
    requiredOk reqAll storeEmpty = true ∧
    ((∃ k, (handler1 reqAll storeEmpty envOk
      (.ok none (some [itemBad, itemP1]))).resp = .complete k) ∧
    checkedIds (handler1 reqAll storeEmpty envOk
      (.ok none (some [itemBad, itemP1]))).evs =
      ([itemBad, itemP1].take 3).map (fun p => p.id) ∧
    (∀ (e : Option (Option String)) (i : Option (List FeedItem)) (m : String),
      (handler1 reqAll storeEmpty envOk (.ok e i)).resp ≠ .serverError m)) :=
  ⟨by decide, c2_amended_version1_isolates_item_failures reqAll storeEmpty envOk [itemBad, itemP1] (by decide)⟩

/-- Claim C3 counterexample: the version 0 handler has no processing cap:
with a fresh ledger and four fetched items it checks, delivers and records
all four, including the fourth, contrary to the claim. -/
theorem c3_counterexample_version0_processes_all_items :
    (handler0 reqAll storeEmpty envOk
      (.ok none (some [itemP1, itemP2, itemP3, itemP4]))).resp = .complete 4 ∧
    (handler0 reqAll storeEmpty envOk
      (.ok none (some [itemP1, itemP2, itemP3, itemP4]))).ledger =
      ["p1", "p2", "p3", "p4"] ∧
    checkedIds (handler0 reqAll storeEmpty envOk
      (.ok none (some [itemP1, itemP2, itemP3, itemP4]))).evs =
      ["p1", "p2", "p3", "p4"] ∧
    (handler0 reqAll storeEmpty envOk
      (.ok none (some [itemP1, itemP2, itemP3, itemP4]))).evs.any
      (evOkSendFor "p4") = true := by
  decide

/-- Claim C3 (amended): the version 1 handler processes exactly the first
three fetched items: its outcome depends only on `items.take 3`, and the
ledger checks performed are exactly the ids of that prefix. -/
theorem c3_amended_version1_caps_processing_at_three (req : Req) (st : Stores) (env : Env)
    (err : Option (Option String)) (its : List FeedItem) :
    handler1 req st env (.ok err (some its)) =
      handler1 req st env (.ok err (some (its.take 3))) ∧
    (requiredOk req st = true →
      checkedIds (handler1 req st env (.ok none (some its))).evs =
        (its.take 3).map (fun p => p.id)) := by
  refine ⟨?_, fun hok => handler1_checked req st env its hok⟩
  unfold handler1
  by_cases hok : requiredOk req st
  · cases err with
    | some m => simp [hok]
    | none => simp [hok, List.take_take]
  · simp [hok]

/-- Witness for the amended C3 at a concrete four-item feed. -/
theorem c3_amended_version1_caps_processing_at_three_witness :
    requiredOk reqAll storeEmpty = true ∧
    (handler1 reqAll storeEmpty envOk
        (.ok none (some [itemP1, itemP2, itemP3, itemP4])) =
      handler1 reqAll storeEmpty envOk
        (.ok none (some ([itemP1, itemP2, itemP3, itemP4].take 3))) ∧
    checkedIds (handler1 reqAll storeEmpty envOk
        (.ok none (some [itemP1, itemP2, itemP3, itemP4]))).evs =
      ([itemP1, itemP2, itemP3, itemP4].take 3).map (fun p => p.id)) :=
  ⟨by decide,
    (c3_amended_version1_caps_processing_at_three reqAll storeEmpty envOk none [itemP1, itemP2, itemP3, itemP4]).1,
    (c3_amended_version1_caps_processing_at_three reqAll storeEmpty envOk none [itemP1, itemP2, itemP3, itemP4]).2
      (by decide)⟩

/-- Claim C4: an id already in the ledger receives no delivery attempt in
either handler version, and a cycle over a feed fully covered by the
ledger completes with zero delivered, an unchanged ledger, and a trace of
only the fetch and the ledger checks. -/
theorem c4_warm_ledger_cycle_is_noop (req : Req) (st : Stores) (env : Env)
    (fr : FetchResp) (its : List FeedItem)
    (hwarm : ∀ p ∈ its, p.id ∈ st.ledger) :
    (∀ id ∈ st.ledger,
      (handler1 req st env fr).evs.any (evSendFor id) = false ∧
      (handler0 req st env fr).evs.any (evSendFor id) = false) ∧
    (requiredOk req st = true →
      handler1 req st env (.ok none (some its)) =
        { resp := .complete 0, ledger := st.ledger,
          evs := Ev.fetch :: (its.take 3).map (fun p => Ev.check p.id) } ∧
      handler0 req st env (.ok none (some its)) =
        { resp := .complete 0, ledger := st.ledger,
          evs := Ev.fetch :: its.map (fun p => Ev.check p.id) }) := by
  refine ⟨fun id hid => ⟨handler1_NoSend req st env fr id hid,
    handler0_NoSend req st env fr id hid⟩, fun hok => ⟨?_, ?_⟩⟩
  · rw [handler1_eq_loop req st env its hok,
      loop1_warm env (its.take 3) (sInit st)
        (fun p hp => hwarm p (List.mem_of_mem_take hp))]
    simp [sInit]
  · unfold handler0
    rw [if_pos hok]
    have hw := loop0_warm env its
      { ledger := st.ledger, synced := 0, evs := [Ev.fetch], n := 0 }
      (fun p hp => by simpa using hwarm p hp)
    simp [hw]

/-- Witness for C4 at a concrete warm-ledger input. -/
theorem c4_warm_ledger_cycle_is_noop_witness :
    (∀ p ∈ [itemP1], p.id ∈ storeWarm.ledger) ∧
    ((∀ id ∈ storeWarm.ledger,
      (handler1 reqAll storeWarm envOk (.ok none (some [itemP1]))).evs.any (evSendFor id) = false ∧
      (handler0 reqAll storeWarm envOk (.ok none (some [itemP1]))).evs.any (evSendFor id) = false) ∧
    (requiredOk reqAll storeWarm = true →
      handler1 reqAll storeWarm envOk (.ok none (some [itemP1])) =
        { resp := .complete 0, ledger := storeWarm.ledger,
          evs := Ev.fetch :: ([itemP1].take 3).map (fun p => Ev.check p.id) } ∧
      handler0 reqAll storeWarm envOk (.ok none (some [itemP1])) =
        { resp := .complete 0, ledger := storeWarm.ledger,
          evs := Ev.fetch :: [itemP1].map (fun p => Ev.check p.id) })) :=
  ⟨by decide, c4_warm_ledger_cycle_is_noop reqAll storeWarm envOk (.ok none (some [itemP1])) [itemP1] (by decide)⟩

/-- Claim C5 counterexample: in the version 0 handler a failed image
delivery is NOT retried as text: the trace holds exactly one photo send
and no text send, contrary to the claimed one-shot text retry. -/
theorem c5_counterexample_version0_makes_no_text_retry :
    handler0 reqAll storeEmpty envFail (.ok none (some [itemP1])) =
      { resp := .complete 0, ledger := [],
        evs := [Ev.fetch, Ev.check "p1", Ev.gemini "p1",
          Ev.sendPhoto "p1" "i1" ("D" ++ ctaSuffix "u1") false] } ∧
    ((handler0 reqAll storeEmpty envFail (.ok none (some [itemP1]))).evs.filter
      isTextSend).length = 0 := by
  decide

/-- Claim C5 (amended): in the version 1 handler, when the photo send of a
fresh item fails, exactly one text-only retry carrying the same full
composed message follows; on retry success the item is inserted and
counted exactly once, on retry failure nothing is inserted and no further
attempt is made (and no error is surfaced in the response). -/
theorem c5_amended_version1_one_shot_text_retry (env : Env) (s : S) (p : FeedItem) (img : String)
    (hmem : s.ledger.contains p.id = false)
    (hri : resolveImage p = .ok (some img))
    (himg : truthy (some img) = true)
    (hfail : env.tgOk s.n = false) :
    (env.tgOk (s.n + 1) = true →
      step1 env s p =
        { ledger := s.ledger ++ [p.id], synced := s.synced + 1,
          evs := s.evs ++ [Ev.check p.id,
            Ev.sendPhoto p.id img (fullMessage1 p) false,
            Ev.logErr p.id "Telegram Send Failed",
            Ev.sendText p.id (fullMessage1 p) true, Ev.insert p.id],
          n := s.n + 2 }) ∧
    (env.tgOk (s.n + 1) = false →
      step1 env s p =
        { ledger := s.ledger, synced := s.synced,
          evs := s.evs ++ [Ev.check p.id,
            Ev.sendPhoto p.id img (fullMessage1 p) false,
            Ev.logErr p.id "Telegram Send Failed",
            Ev.sendText p.id (fullMessage1 p) false],
          n := s.n + 2 }) := by
  constructor <;> intro h2 <;> unfold step1 <;> rw [hmem] <;>
    simp [hri, himg, hfail, h2]

/-- Witness for the amended C5 at a concrete failing-photo input. -/
theorem c5_amended_version1_one_shot_text_retry_witness :
    ((sInit storeEmpty).ledger.contains itemP1.id = false ∧
      resolveImage itemP1 = .ok (some "i1") ∧
      truthy (some "i1") = true ∧
      envFail.tgOk (sInit storeEmpty).n = false) ∧
    ((envFail.tgOk ((sInit storeEmpty).n + 1) = true →
      step1 envFail (sInit storeEmpty) itemP1 =
        { ledger := (sInit storeEmpty).ledger ++ [itemP1.id],
          synced := (sInit storeEmpty).synced + 1,
          evs := (sInit storeEmpty).evs ++ [Ev.check itemP1.id,
            Ev.sendPhoto itemP1.id "i1" (fullMessage1 itemP1) false,
            Ev.logErr itemP1.id "Telegram Send Failed",
            Ev.sendText itemP1.id (fullMessage1 itemP1) true, Ev.insert itemP1.id],
          n := (sInit storeEmpty).n + 2 }) ∧
    (envFail.tgOk ((sInit storeEmpty).n + 1) = false →
      step1 envFail (sInit storeEmpty) itemP1 =
        { ledger := (sInit storeEmpty).ledger, synced := (sInit storeEmpty).synced,
          evs := (sInit storeEmpty).evs ++ [Ev.check itemP1.id,
            Ev.sendPhoto itemP1.id "i1" (fullMessage1 itemP1) false,
            Ev.logErr itemP1.id "Telegram Send Failed",
            Ev.sendText itemP1.id (fullMessage1 itemP1) false],
          n := (sInit storeEmpty).n + 2 })) :=
  ⟨⟨rfl, rfl, rfl, rfl⟩,
    c5_amended_version1_one_shot_text_retry envFail (sInit storeEmpty) itemP1 "i1" rfl rfl rfl rfl⟩

/-- Claim C6: if any of the four required configuration values resolves
falsy through the override/stored/environment chain, both handler versions
return the 400 missing-configuration response with an untouched ledger and
an empty trace — zero network calls. -/
theorem c6_missing_config_aborts_with_no_network_calls (req : Req) (st : Stores) (env : Env) (fr : FetchResp)
    (h : truthy (resolveKey req.ovApiKey st.settings st.envv "BLOGGER_API_KEY") = false ∨
      truthy (resolveKey req.ovBlogId st.settings st.envv "BLOGGER_BLOG_ID") = false ∨
      truthy (resolveKey req.ovBotToken st.settings st.envv "TELEGRAM_BOT_TOKEN") = false ∨
      truthy (resolveKey req.ovChatId st.settings st.envv "TELEGRAM_CHANNEL_ID") = false) :
    handler1 req st env fr = { resp := .missingConfig, ledger := st.ledger, evs := [] } ∧
    handler0 req st env fr = { resp := .missingConfig, ledger := st.ledger, evs := [] } ∧
    Resp.status .missingConfig = 400 := by
  have hok : requiredOk req st = false := by
    unfold requiredOk
    rcases h with h | h | h | h <;> simp [h]
  refine ⟨?_, ?_, rfl⟩ <;> simp [handler1, handler0, hok]

/-- Witness for C6 with all four configuration values absent. -/
theorem c6_missing_config_aborts_with_no_network_calls_witness :
    (truthy (resolveKey reqNone.ovApiKey storeEmpty.settings storeEmpty.envv "BLOGGER_API_KEY") = false ∨
      truthy (resolveKey reqNone.ovBlogId storeEmpty.settings storeEmpty.envv "BLOGGER_BLOG_ID") = false ∨
      truthy (resolveKey reqNone.ovBotToken storeEmpty.settings storeEmpty.envv "TELEGRAM_BOT_TOKEN") = false ∨
      truthy (resolveKey reqNone.ovChatId storeEmpty.settings storeEmpty.envv "TELEGRAM_CHANNEL_ID") = false) ∧
    (handler1 reqNone storeEmpty envOk (.ok none (some [itemP1])) =
      { resp := .missingConfig, ledger := storeEmpty.ledger, evs := [] } ∧
    handler0 reqNone storeEmpty envOk (.ok none (some [itemP1])) =
      { resp := .missingConfig, ledger := storeEmpty.ledger, evs := [] } ∧
    Resp.status .missingConfig = 400) :=
  ⟨by decide, c6_missing_config_aborts_with_no_network_calls reqNone storeEmpty envOk (.ok none (some [itemP1])) (by decide)⟩

/-- Claim C7 counterexample: the version 0 handler ignores a structured
upstream error object: a response with an error and no items is answered
as a successful empty feed (HTTP 200 "No posts found"), not aborted. -/
theorem c7_counterexample_version0_upstream_error_treated_as_empty :
    handler0 reqAll storeEmpty envOk (.ok (some (some "Invalid Credentials")) none) =
      { resp := .noPosts, ledger := [], evs := [Ev.fetch] } ∧
    Resp.status (handler0 reqAll storeEmpty envOk
      (.ok (some (some "Invalid Credentials")) none)).resp = 200 := by
  decide

/-- Claim C7 (amended): the version 1 handler turns a structured upstream
error into a 400 Blogger-error failure with no items processed, while an
absent items field ends the cycle successfully (as does an empty items
list, with zero delivered); version 0 handles only the absent-items case. -/
theorem c7_amended_version1_upstream_error_aborts_cycle (req : Req) (st : Stores) (env : Env)
    (m : Option String) (items : Option (List FeedItem))
    (hok : requiredOk req st = true) :
    (handler1 req st env (.ok (some m) items) =
      { resp := .bloggerError ("Blogger API Error: " ++ errMsg m),
        ledger := st.ledger, evs := [Ev.fetch] } ∧
      Resp.status (Resp.bloggerError ("Blogger API Error: " ++ errMsg m)) = 400) ∧
    (handler1 req st env (.ok none none) =
      { resp := .noPosts, ledger := st.ledger, evs := [Ev.fetch] } ∧
      Resp.status Resp.noPosts = 200) ∧
    handler1 req st env (.ok none (some [])) =
      { resp := .complete 0, ledger := st.ledger, evs := [Ev.fetch] } ∧
    handler0 req st env (.ok none none) =
      { resp := .noPosts, ledger := st.ledger, evs := [Ev.fetch] } := by
  refine ⟨⟨?_, rfl⟩, ⟨?_, rfl⟩, ?_, ?_⟩ <;> simp [handler1, handler0, hok, loop1]

/-- Witness for the amended C7 at a concrete upstream error. -/
theorem c7_amended_version1_upstream_error_aborts_cycle_witness :
    requiredOk reqAll storeEmpty = true ∧
    ((handler1 reqAll storeEmpty envOk (.ok (some (some "boom")) none) =
      { resp := .bloggerError ("Blogger API Error: " ++ errMsg (some "boom")),
        ledger := storeEmpty.ledger, evs := [Ev.fetch] } ∧
      Resp.status (Resp.bloggerError ("Blogger API Error: " ++ errMsg (some "boom"))) = 400) ∧
    (handler1 reqAll storeEmpty envOk (.ok none none) =
      { resp := .noPosts, ledger := storeEmpty.ledger, evs := [Ev.fetch] } ∧
      Resp.status Resp.noPosts = 200) ∧
    handler1 reqAll storeEmpty envOk (.ok none (some [])) =
      { resp := .complete 0, ledger := storeEmpty.ledger, evs := [Ev.fetch] } ∧
    handler0 reqAll storeEmpty envOk (.ok none none) =
      { resp := .noPosts, ledger := storeEmpty.ledger, evs := [Ev.fetch] }) :=
  ⟨by decide,
    c7_amended_version1_upstream_error_aborts_cycle reqAll storeEmpty envOk (some "boom") none (by decide)⟩

/-- Claim C8 counterexample: the sync response carries no per-item error
list: a cycle whose only item fails delivery returns exactly the same
response as a cycle with no failed deliveries, so the failed item id and
reason are not reported in the result. -/
theorem c8_counterexample_result_carries_no_error_list :
    (handler1 reqAll storeEmpty envFail (.ok none (some [itemNoImg]))).resp =
      (handler1 reqAll storeWarm envOk (.ok none (some [itemP1]))).resp ∧
    (handler1 reqAll storeEmpty envFail (.ok none (some [itemNoImg]))).evs.any
      (evSendFor "q1") = true ∧
    (handler1 reqAll storeEmpty envFail (.ok none (some [itemNoImg]))).evs.any
      (evOkSendFor "q1") = false ∧
    (handler1 reqAll storeWarm envOk (.ok none (some [itemP1]))).evs.any
      (evSendFor "p1") = false ∧
    (handler1 reqAll storeEmpty envFail (.ok none (some [itemNoImg]))).resp =
      .complete 0 := by
  decide

/-- Claim C8 (amended): a completed version 1 cycle responds 200 with the
count of items actually recorded (one per ledger insert) but no error
list; non-success statuses are produced only by configuration failures
(400), fetch-stage failures (400) and thrown errors (500). -/
theorem c8_amended_result_reports_count_with_success_status (req : Req) (st : Stores) (env : Env)
    (its : List FeedItem) (hok : requiredOk req st = true) :
    (handler1 req st env (.ok none (some its))).resp =
      .complete (((handler1 req st env (.ok none (some its))).evs.filter
        isInsertEv).length) ∧
    Resp.status (handler1 req st env (.ok none (some its))).resp = 200 ∧
    Resp.status Resp.missingConfig = 400 ∧
    (∀ m, Resp.status (Resp.bloggerError m) = 400) ∧
    (∀ m, Resp.status (Resp.serverError m) = 500) := by
  refine ⟨handler1_count req st env its hok, ?_, rfl, fun m => rfl, fun m => rfl⟩
  rw [handler1_eq_loop req st env its hok]
  rfl

/-- Witness for the amended C8 at a concrete one-item feed. -/
theorem c8_amended_result_reports_count_with_success_status_witness :
    requiredOk reqAll storeEmpty = true ∧
    ((handler1 reqAll storeEmpty envOk (.ok none (some [itemP1]))).resp =
      .complete (((handler1 reqAll storeEmpty envOk
        (.ok none (some [itemP1]))).evs.filter isInsertEv).length) ∧
    Resp.status (handler1 reqAll storeEmpty envOk
      (.ok none (some [itemP1]))).resp = 200 ∧
    Resp.status Resp.missingConfig = 400 ∧
    (∀ m, Resp.status (Resp.bloggerError m) = 400) ∧
    (∀ m, Resp.status (Resp.serverError m) = 500)) :=
  ⟨by decide, c8_amended_result_reports_count_with_success_status reqAll storeEmpty envOk [itemP1] (by decide)⟩

/-- Claim C9: configuration resolution treats the empty string as absent
at every level: an empty per-call override falls through to the stored
setting, an empty or missing stored setting falls through to the process
environment, and the handler behaves identically under an empty override
and an absent one. -/
theorem c9_empty_string_config_falls_through :
    (∀ (stg envv : String → Option String) (k : String),
      resolveKey (some "") stg envv k = getSetting stg envv k) ∧
    (∀ (stg envv : String → Option String) (k : String),
      stg k = some "" → getSetting stg envv k = envv k) ∧
    (∀ (stg envv : String → Option String) (k : String),
      stg k = none → getSetting stg envv k = envv k) ∧
    (∀ (req : Req) (st : Stores) (env : Env) (fr : FetchResp),
      handler1 { req with ovApiKey := some "" } st env fr =
        handler1 { req with ovApiKey := none } st env fr) := by
  refine ⟨fun stg envv k => ?_, fun stg envv k h => ?_, fun stg envv k h => ?_,
    fun req st env fr => ?_⟩
  · simp [resolveKey, jsOr, truthy]
  · simp [getSetting, jsOr, truthy, h]
  · simp [getSetting, jsOr, truthy, h]
  · have hreq : requiredOk { req with ovApiKey := some "" } st =
        requiredOk { req with ovApiKey := none } st := by
      unfold requiredOk
      simp [resolveKey, jsOr, truthy]
    unfold handler1
    rw [hreq]

/-- Witness for C9 at concrete stored/environment settings. -/
theorem c9_empty_string_config_falls_through_witness :
    ((fun _ : String => some "") "K" = some "" ∧
      getSetting (fun _ => some "") (fun _ => some "E") "K" = (fun _ : String => some "E") "K") ∧
    resolveKey (some "") (fun _ => none) (fun _ => some "E") "K" =
      getSetting (fun _ => none) (fun _ => some "E") "K" := by
  refine ⟨⟨rfl, c9_empty_string_config_falls_through.2.1 (fun _ => some "") (fun _ => some "E") "K" rfl⟩, ?_⟩
  exact c9_empty_string_config_falls_through.1 (fun _ => none) (fun _ => some "E") "K"

/-- Claim C10: a fetched item with no structured image and no body makes
image resolution throw; in version 1 the item is logged and skipped before
any delivery attempt, in version 0 the loop aborts — in both versions the
item is neither delivered nor recorded in the ledger. -/
theorem c10_missing_body_fails_before_delivery (env : Env) (s : S) (p : FeedItem)
    (himg : p.images = []) (hcont : p.content = none)
    (hmem : s.ledger.contains p.id = false) :
    resolveImage p = .error () ∧
    step1 env s p =
      { s with evs := s.evs ++ [Ev.check p.id, Ev.logErr p.id "Error processing post"] } ∧
    (∀ rest, loop0 env s (p :: rest) =
      ({ s with evs := s.evs ++ [Ev.check p.id] }, true)) := by
  have hri : resolveImage p = .error () := by
    simp [resolveImage, himg, hcont, truthy]
  refine ⟨hri, ?_, fun rest => ?_⟩
  · unfold step1
    rw [hmem]
    simp [hri]
  · unfold loop0 step0
    rw [hmem]
    simp [hri]

/-- Witness for C10 at the concrete bodyless item. -/
theorem c10_missing_body_fails_before_delivery_witness :
    (itemBad.images = [] ∧ itemBad.content = none ∧
      (sInit storeEmpty).ledger.contains itemBad.id = false) ∧
    (resolveImage itemBad = .error () ∧
    step1 envOk (sInit storeEmpty) itemBad =
      { sInit storeEmpty with
        evs := (sInit storeEmpty).evs ++
          [Ev.check itemBad.id, Ev.logErr itemBad.id "Error processing post"] } ∧
    (∀ rest, loop0 envOk (sInit storeEmpty) (itemBad :: rest) =
      ({ sInit storeEmpty with
        evs := (sInit storeEmpty).evs ++ [Ev.check itemBad.id] }, true))) :=
  ⟨⟨rfl, rfl, rfl⟩, c10_missing_body_fails_before_delivery envOk (sInit storeEmpty) itemBad rfl rfl rfl⟩
